import Mathlib

/-!
Verification of the release orchestrator `release_deb.py`.

The program is a sequential command-line orchestrator: per project it runs
one release step, shelling out to external tools (git, bumpversion, git-dpm,
pristine-tar, and Launchpad helper scripts) and keeping light state in local
JSON/INI files.

Shallow embedding used here:
  * every external process invocation is recorded in a trace as a pair of
    the command and the boolean `check` flag passed to `subprocess.run`;
  * local file state (`.bumpversion.cfg`, `versions.json`, the changelog,
    the config JSON, the working directory) lives in a `World` record;
  * outputs and exit codes of the opaque external tools come from an `Env`
    of oracle functions (the tools are assumed correct, per the spec);
  * Python exceptions (`SystemExit`, `NameError`, `KeyError`, ...) are an
    explicit `Err` type; computations run in a reader/state/except/writer
    monad `M`.
-/

namespace ReleaseDeb

/-- Substring search on character lists, mirroring the Python `in` operator
on strings. -/
def charsContain (hay need : List Char) : Bool :=
  match hay with
  | [] => need.isEmpty
  | c :: t => need.isPrefixOf (c :: t) || charsContain t need

/-- Python `needle in s` for strings. -/
def strContains (s pat : String) : Bool :=
  charsContain s.toList pat.toList

/-- Python `str.rstrip()` (trailing whitespace removal). -/
def pyRstrip (s : String) : String :=
  String.mk ((s.toList.reverse.dropWhile Char.isWhitespace).reverse)

/-- Split a character list at newline characters, like `String.splitOn` with
separator a single newline. -/
def splitOnNewline : List Char → List (List Char)
  | [] => [[]]
  | c :: rest =>
    let r := splitOnNewline rest
    if c = '\n' then [] :: r
    else
      match r with
      | [] => [[c]]
      | h :: t => (c :: h) :: t

/-- Python `str.splitlines()` restricted to newline terminators: split at
newlines, dropping the trailing empty piece, with `splitlines` of the empty
string being the empty list. -/
def pySplitlines (s : String) : List String :=
  match s.toList with
  | [] => []
  | cs =>
    let parts := splitOnNewline cs
    let parts2 :=
      match parts.getLast? with
      | some [] => parts.dropLast
      | _ => parts
    parts2.map String.mk

/-- Replace every non-overlapping occurrence of `pat` (nonempty) in `s`,
left to right, like Python `str.replace`.  The first argument is fuel,
instantiated with the length of the subject list. -/
def replaceCharsAux : Nat → List Char → List Char → List Char → List Char
  | 0, s, _, _ => s
  | fuel + 1, s, pat, rep =>
    match s with
    | [] => []
    | c :: rest =>
      if pat.isPrefixOf (c :: rest) then
        rep ++ replaceCharsAux fuel ((c :: rest).drop pat.length) pat rep
      else
        c :: replaceCharsAux fuel rest pat rep

/-- Python `s.replace(pat, rep)` for a nonempty pattern (every pattern used
by the program is nonempty). -/
def strReplace (s pat rep : String) : String :=
  if pat.toList.isEmpty then s
  else String.mk (replaceCharsAux s.toList.length s.toList pat.toList rep.toList)

/-- Whether a tag matches the glob pattern `v*[^c][0-9]` used by the program
to find the last final (non release-candidate) version tag: the string
starts with `v`, has length at least 3, ends with a digit, and its
second-to-last character is not `c`. -/
def stableTagMatch (s : String) : Bool :=
  let cs := s.toList
  decide (3 ≤ cs.length) &&
    (match cs with
     | 'v' :: _ => true
     | _ => false) &&
    (match cs.reverse with
     | d :: c :: _ => d.isDigit && !(c = 'c')
     | _ => false)

/-- Model of `git describe --abbrev=0 --tags --match "v*[^c][0-9]"` on the
code repository: the most recently created matching tag, if any (tags are
listed in creation order). -/
def describeStable (tags : List String) : Option String :=
  (tags.filter stableTagMatch).getLast?

/-- Parse a nonempty all-digit character list as a natural number. -/
def parseNatChars (cs : List Char) : Option Nat :=
  if cs.isEmpty then none
  else if cs.all Char.isDigit then
    some (cs.foldl (fun acc c => acc * 10 + (c.toNat - 48)) 0)
  else none

/-- Python `int(s)`: parse an optionally signed decimal integer, anything
else raises `ValueError`. -/
def pyInt (s : String) : Option Int :=
  match s.toList with
  | '-' :: rest => (parseNatChars rest).map (fun n => -(n : Int))
  | cs => (parseNatChars cs).map (fun n => (n : Int))

/-- Join strings with a separator, like `"/".join(...)`. -/
def joinSep (sep : String) : List String → String
  | [] => ""
  | [x] => x
  | x :: y :: xs => x ++ sep ++ joinSep sep (y :: xs)

/-- The per-project version record persisted in `versions.json`. -/
structure VersionRecord where
  last_stable : String
  current : String
  new : String
deriving DecidableEq, Repr

/-- The release configuration JSON: one boolean flag per project key, plus
the global `mode` and `dry_run` entries. -/
structure Config where
  flags : List (String × Bool)
  mode : String
  dry_run : Bool
deriving DecidableEq, Repr

/-- The keys of the configuration JSON object, as returned by
`config.keys()`: the project keys together with `mode` and `dry_run`. -/
def configKeys (cfg : Config) : List String :=
  cfg.flags.map Prod.fst ++ ["mode", "dry_run"]

/-- Association-list lookup (first binding wins), mirroring dictionary
access. -/
def lookupAssoc {α : Type} (l : List (String × α)) (k : String) : Option α :=
  (l.find? (fun kv => kv.1 == k)).map Prod.snd

/-- Set a key in an association list, replacing an existing binding or
appending a new one, mirroring dictionary assignment. -/
def setAssoc (l : List (String × VersionRecord)) (k : String)
    (v : VersionRecord) : List (String × VersionRecord) :=
  if l.any (fun kv => kv.1 == k) then
    l.map (fun kv => if kv.1 == k then (k, v) else kv)
  else
    l ++ [(k, v)]

/-- Parsed command-line arguments of the program.  `dryRun` holds the value
of the `--dry-run` flag (or its `DEB_RELEASE_DRY_RUN` environment fallback)
as computed by argparse. -/
structure Args where
  project : Option String
  step : String
  user : String
  target_user : String
  mode : String
  dryRun : Bool
deriving DecidableEq, Repr

/-- An external command: either an argv list or a shell line, together with
the working directory it is run in (empty when none is given). -/
inductive Cmd where
  | exec (argv : List String) (cwd : String)
  | shell (line : String) (cwd : String)
deriving DecidableEq, Repr

/-- Python exceptions observable in the program. -/
inductive Err where
  | systemExit (code : Nat)
  | systemExitMsg (msg : String)
  | nameError (n : String)
  | keyError (k : String)
  | valueError (s : String)
  | fileNotFound (f : String)
  | indexError
deriving DecidableEq, Repr

deriving instance DecidableEq for Except

/-- The trace of issued external commands, each paired with the `check`
flag passed to `subprocess.run`. -/
abbrev Trace := List (Cmd × Bool)

/-- Oracles for the opaque external tools. -/
structure Env where
  /-- Exit status of a command (used for commands whose success is not
  determined by the modeled state). -/
  exitCode : Cmd → Nat
  /-- Captured stdout of a command, for commands whose output the program
  reads (diffs, rev-list counts, git log). -/
  output : Cmd → String
  /-- The version the `bumpversion` tool writes when bumping the given part
  from the given current version. -/
  bump : String → String → String

/-- Local file and working-directory state. -/
structure World where
  /-- Contents of the release config JSON file. -/
  configFile : Config
  /-- `current_version` recorded in the project `.bumpversion.cfg`
  (`none` when the file or section is missing). -/
  cfgVersion : Option String
  /-- Contents of `versions.json` (`none` when the file does not exist). -/
  versionsFile : Option (List (String × VersionRecord))
  /-- Tags of the cloned code repository, in creation order. -/
  repoTags : List String
  /-- Contents of the local changelog file. -/
  changelogText : String
  /-- The working directory `src`: `none` when missing, otherwise whether
  it is empty. -/
  srcDir : Option Bool
  /-- Directories found by `os.walk` that contain a `debian` subdirectory,
  as lists of path components. -/
  walkEntries : List (List String)
  /-- The `dist/*<version>.tar.gz` archives of the project, in glob
  order. -/
  distArchives : List String
  /-- Whether `manage.py` exists in the project clone. -/
  manageExists : Bool
  /-- Whether `setup.py` exists in the project clone. -/
  setupExists : Bool
deriving DecidableEq, Repr

/-- The computation monad: reader over the oracle environment, state over
the local files, an exception result, and a writer trace of the external
commands issued. -/
def M (α : Type) : Type :=
  Env → World → Except Err α × World × Trace

/-- Monadic return. -/
def M.pure {α : Type} (a : α) : M α := fun _ w => (Except.ok a, w, [])

/-- Monadic bind: thread the state, append the traces, and short-circuit on
an exception. -/
def M.bind {α β : Type} (x : M α) (f : α → M β) : M β := fun env w =>
  match x env w with
  | (Except.ok a, w1, t1) =>
    match f a env w1 with
    | (r, w2, t2) => (r, w2, t1 ++ t2)
  | (Except.error e, w1, t1) => (Except.error e, w1, t1)

instance : Monad M where
  pure := M.pure
  bind := M.bind

/-- Raise a Python exception. -/
def mThrow {α : Type} (e : Err) : M α := fun _ w => (Except.error e, w, [])

/-- Read the current file state. -/
def getW : M World := fun _ w => (Except.ok w, w, [])

/-- Update the file state. -/
def modifyW (f : World → World) : M Unit := fun _ w => (Except.ok (), f w, [])

/-- Read the oracle environment. -/
def getE : M Env := fun env w => (Except.ok env, w, [])

/-- Model of the `run` wrapper around `subprocess.run` (release_deb.py
lines 73-82): issue the command; when `check` is set and the exit status is
non-zero, `subprocess.run` raises `CalledProcessError`, which the wrapper
logs and converts to `SystemExit(1)`.  Without `check`, the status is
returned to the caller. -/
def emitCmd (c : Cmd) (check : Bool) : M Nat := fun env w =>
  let rc := env.exitCode c
  if check && !(rc = 0) then (Except.error (Err.systemExit 1), w, [(c, check)])
  else (Except.ok rc, w, [(c, check)])

theorem bind_eval {α β : Type} (x : M α) (f : α → M β) (env : Env) (w : World) :
    (x >>= f) env w =
      (match x env w with
       | (Except.ok a, w1, t1) =>
         (match f a env w1 with
          | (r, w2, t2) => (r, w2, t1 ++ t2))
       | (Except.error e, w1, t1) => (Except.error e, w1, t1)) := rfl

theorem pure_eval {α : Type} (a : α) (env : Env) (w : World) :
    (Pure.pure a : M α) env w = (Except.ok a, w, []) := rfl

/-- The fixed upstream monorepo URL (`ORIGIN`). -/
def origin : String := "git@github.com:yphus/monorepo-sandbox.git"

/-- The working directory constant `Release.CWD`. -/
def cwdConst : String := "src"

/-- The `Release` object as built by `Release.__init__`: note that
`dry_run` is read from the config JSON, not from the parsed command-line
arguments. -/
structure Rel where
  project : String
  step : String
  user : String
  target_user : String
  config : Config
  dry_run : Bool
  packaging : String
  base_url : String
  full_url : String
  snap : String
  clone_dir : String
  packaging_clone_dir : String
deriving DecidableEq, Repr

/-- `Release.__init__`, with the config JSON already loaded from the world
by the caller. -/
def mkRelease (a : Args) (p : String) (cfg : Config) : Rel :=
  let base_url := "git+ssh://" ++ a.user ++ "@git.launchpad.net"
  let full_url := base_url ++ "/" ++ p
  { project := p
    step := a.step
    user := a.user
    target_user := a.target_user
    config := cfg
    dry_run := cfg.dry_run
    packaging := "packaging_" ++ p
    base_url := base_url
    full_url := full_url
    snap := p
    clone_dir := cwdConst ++ "/" ++ p
    packaging_clone_dir := cwdConst ++ "/" ++ "packaging_" ++ p }

/-- `Release._get_version`: read `current_version` from the project
`.bumpversion.cfg`; a missing file or section is a `KeyError` handled by
logging and `SystemExit(1)`. -/
def getVersion (_r : Rel) : M String := do
  let w ← getW
  match w.cfgVersion with
  | some v => pure v
  | none => mThrow (Err.systemExit 1)

/-- The argv of one `bumpversion` invocation. -/
def bumpArgv (part : String) : List String :=
  ["bumpversion", part, "--allow-dirty", "--list"]

/-- One `bumpversion <part> --allow-dirty --list` call (always made with
`check=True`): on success the tool rewrites `.bumpversion.cfg` to the new
version and its `--list` output ends with a `new_version=...` line, which
is what the model takes as the captured stdout. -/
def callBumpversion (r : Rel) (part : String) : M String := do
  let _rc ← emitCmd (Cmd.exec (bumpArgv part) r.clone_dir) true
  let env ← getE
  let w ← getW
  let v := w.cfgVersion.getD ""
  let v2 := env.bump part v
  modifyW (fun w0 => { w0 with cfgVersion := some v2 })
  pure ("new_version=" ++ v2)

/-- Parse the bumpversion output as the source does:
`output.splitlines()[-1].replace("new_version=", "")`; indexing an empty
list raises `IndexError`. -/
def parseNewVersion (out : String) : Except Err String :=
  match (pySplitlines out).getLast? with
  | none => Except.error Err.indexError
  | some line => Except.ok (strReplace line "new_version=" "")

/-- Lift an `Except` value into the monad. -/
def mOfExcept {α : Type} (e : Except Err α) : M α := fun _ w => (e, w, [])

/-- The argv of the stable-tag lookup in `_save_versions`. -/
def describeStableArgv : List String :=
  ["git", "describe", "--abbrev=0", "--tags", "--match", "v*[^c][0-9]"]

/-- The `git describe --abbrev=0 --tags --match "v*[^c][0-9]"` call in
`_save_versions`, made with `check=True`: its exit status is zero exactly
when a matching tag exists, in which case stdout is that tag. -/
def emitDescribeStable (r : Rel) : M String := fun _ w =>
  let c := (Cmd.exec describeStableArgv r.clone_dir, true)
  match describeStable w.repoTags with
  | some t => (Except.ok t, w, [c])
  | none => (Except.error (Err.systemExit 1), w, [c])

/-- `Release._save_versions`: read `versions.json` (missing file means an
empty dictionary), look up the last stable tag, and write back the record
for the project. -/
def saveVersions (r : Rel) (currentV newV : String) : M Unit := do
  let w ← getW
  let data := w.versionsFile.getD []
  let t ← emitDescribeStable r
  let lastStable := (t.toList.drop 1).asString
  let data2 := setAssoc data r.project
    { last_stable := lastStable, current := currentV, new := newV }
  modifyW (fun w0 => { w0 with versionsFile := some data2 })

/-- The mode-dependent sequence of `bumpversion` calls of `bump_version`
(release_deb.py lines 314-363), returning the captured output of the last
call: stable mode walks dev to rc to final (or minor/rc/final from a final
version), testing mode walks dev to rc to the next rc. -/
def bumpSequence (r : Rel) (currentV : String) : M String :=
  if r.config.mode = "stable" then
    if strContains currentV "dev" then do
      let _ ← callBumpversion r "release"
      callBumpversion r "release"
    else if strContains currentV "rc" then
      callBumpversion r "release"
    else do
      let _ ← callBumpversion r "minor"
      let _ ← callBumpversion r "release"
      callBumpversion r "release"
  else
    if strContains currentV "dev" then do
      let _ ← callBumpversion r "release"
      callBumpversion r "N"
    else if strContains currentV "rc" then
      callBumpversion r "N"
    else do
      let _ ← callBumpversion r "minor"
      let _ ← callBumpversion r "release"
      callBumpversion r "N"

/-- `Release.bump_version` (release_deb.py lines 307-374): read the current
version, apply the mode-dependent sequence of `bumpversion` calls, parse
the new version, commit, persist the record - and then hit the undefined
name `project` while formatting the tag message, so the `git tag` command
is never issued and the method raises `NameError`. -/
def bumpVersion (r : Rel) : M String := do
  let currentV ← getVersion r
  let out ← bumpSequence r currentV
  let newV ← mOfExcept (parseNewVersion out)
  let _ ← emitCmd (Cmd.exec ["git", "add", "--all"] r.clone_dir) true
  let _ ← emitCmd (Cmd.exec ["git", "commit", "-m", "Bump to v" ++ newV] r.clone_dir) true
  saveVersions r currentV newV
  -- The source now formats the tag message as
  --   run(["git", "tag", "v" + self.new_version,
  --        "-m", "Release ... v...".format(project, self.new_version)], ...)
  -- but `project` is a local variable of `main`, not a name visible here:
  -- evaluating the arguments raises NameError before the command runs.
  mThrow (Err.nameError "project")

/-- `Release.create_source_tarball` (the `sdist` step): run whichever of
`manage.py` or `setup.py` exists. -/
def createSourceTarball (r : Rel) : M Unit := do
  let _v ← getVersion r
  let w ← getW
  if w.manageExists then do
    let _ ← emitCmd (Cmd.exec ["./manage.py", "sdist"] r.clone_dir) true
    pure ()
  else if w.setupExists then do
    let _ ← emitCmd (Cmd.exec ["./setup.py", "sdist"] r.clone_dir) true
    pure ()
  else
    pure ()

/-- `Release._prepare_debian_tarball`: compute the Debian orig-tarball name
(with the special-cased project rename) and copy the newest matching
archive to it; a missing archive is fatal.  Returns the orig-tarball name
and the Debian version string stored on the object for `dance`. -/
def prepareDebianTarball (r : Rel) : M (String × String) := do
  let newV ← getVersion r
  let debianNewV := strReplace newV "rc" "~rc"
  let w ← getW
  let debProject :=
    if r.project = "plainbox-provider-resource" then
      "plainbox-provider-resource-generic"
    else r.project
  let origTarball := debProject ++ "_" ++ debianNewV ++ ".orig.tar.gz"
  match w.distArchives.getLast? with
  | none => mThrow (Err.systemExit 1)
  | some _tb => pure (origTarball, debianNewV)

/-- `Release.dance`: the fixed git-dpm sequence on the packaging clone, all
with `check=True`. -/
def dance (r : Rel) (origTarball debianNewV : String) : M Unit := do
  let _ ← emitCmd (Cmd.exec ["git-dpm", "import-new-upstream", "../" ++ origTarball]
    r.packaging_clone_dir) true
  let _ ← emitCmd (Cmd.exec ["pristine-tar", "commit", "../" ++ origTarball]
    r.packaging_clone_dir) true
  let _ ← emitCmd (Cmd.exec ["git-dpm", "prepare"] r.packaging_clone_dir) true
  let _ ← emitCmd (Cmd.exec ["git-dpm", "rebase-patched"] r.packaging_clone_dir) true
  let _ ← emitCmd (Cmd.exec ["git-dpm", "dch", "--", "-v", debianNewV ++ "-1",
    "-D", "UNRELEASED", "\"new upstream version\""] r.packaging_clone_dir) true
  let _ ← emitCmd (Cmd.exec ["git-dpm", "status"] r.packaging_clone_dir) true
  let _ ← emitCmd (Cmd.exec ["git-dpm", "tag"] r.packaging_clone_dir) true

/-- `Release.open_for_development`: bump the minor part, parse the new
development version, and commit. -/
def openForDevelopment (r : Rel) : M Unit := do
  let out ← callBumpversion r "minor"
  let newDevV ← mOfExcept (parseNewVersion out)
  let _ ← emitCmd (Cmd.exec ["git", "add", "--all"] r.clone_dir) true
  let _ ← emitCmd (Cmd.exec ["git", "commit", "-m",
    "increment version to v" ++ newDevV] r.clone_dir) true
  pure ()

/-- The Launchpad URL of the project code repository. -/
def projectUrl (r : Rel) : String :=
  r.base_url ++ "/~" ++ r.target_user ++ "/" ++ r.project

/-- The Launchpad URL of the project packaging repository. -/
def packagingUrl (r : Rel) : String :=
  projectUrl r ++ "/+git/packaging"

/-- `Release.push`: push the release branch with tags of the code repo and
all branches and tags of the packaging repo; in dry-run mode every push
carries `--dry-run`. -/
def pushStep (r : Rel) : M Unit := do
  if r.dry_run then do
    let _ ← emitCmd (Cmd.exec ["git", "push", "--dry-run", projectUrl r,
      "release", "--tags"] r.clone_dir) true
    let _ ← emitCmd (Cmd.exec ["git", "push", "--dry-run", packagingUrl r,
      "--all"] r.packaging_clone_dir) true
    let _ ← emitCmd (Cmd.exec ["git", "push", "--dry-run", packagingUrl r,
      "--tags"] r.packaging_clone_dir) true
    pure ()
  else do
    let _ ← emitCmd (Cmd.exec ["git", "push", projectUrl r,
      "release", "--tags"] r.clone_dir) true
    let _ ← emitCmd (Cmd.exec ["git", "push", packagingUrl r,
      "--all"] r.packaging_clone_dir) true
    let _ ← emitCmd (Cmd.exec ["git", "push", packagingUrl r,
      "--tags"] r.packaging_clone_dir) true
    pure ()

/-- The branch-deletion push issued by `merge` in dry-run mode (note: it is
the one push issued without `check=True`). -/
def mergeDryCmd (r : Rel) : Cmd :=
  Cmd.exec ["git", "push", "--dry-run", projectUrl r, "--delete", "release"]
    r.clone_dir

/-- The merge-proposal shell command of the `merge` step. -/
def proposeMergeCmd (r : Rel) : Cmd :=
  Cmd.shell ("./support/release/git/lp-propose-merge ~" ++ r.target_user ++ "/"
    ++ r.project ++ " -s --merged-timeout 3600 --credentials $LP_CREDS") ""

/-- `Release.merge`: in dry-run mode only a `--dry-run` branch deletion (no
merge proposal, and no `check=True`); otherwise propose and wait for the
merge, then delete the release branch. -/
def mergeStep (r : Rel) : M Unit := do
  if r.dry_run then do
    let _ ← emitCmd (mergeDryCmd r) false
    pure ()
  else do
    let _ ← emitCmd (proposeMergeCmd r) true
    let _ ← emitCmd (Cmd.exec ["git", "push", projectUrl r, "--delete", "release"]
      r.clone_dir) true
    pure ()

/-- The recipe-build shell command of the `build` step. -/
def recipeBuildCmd (r : Rel) (suffix newV : String) : Cmd :=
  Cmd.shell ("./support/release/git/lp-recipe-update-build " ++ r.project
    ++ " --recipe " ++ r.project ++ suffix ++ " -n " ++ newV
    ++ " --credentials $LP_CREDS") ""

/-- `Release.build`: look up the new version in `versions.json` (a missing
project entry is a logged skip); in dry-run mode only log; otherwise
trigger the mode-specific recipe build. -/
def buildStep (r : Rel) : M Unit := do
  let w ← getW
  match w.versionsFile with
  | none => mThrow (Err.fileNotFound "versions.json")
  | some data =>
    match lookupAssoc data r.project with
    | none => pure ()
    | some rec0 =>
      if r.dry_run then pure ()
      else if r.config.mode = "testing" then do
        let _ ← emitCmd (recipeBuildCmd r "-testing" rec0.new) true
        pure ()
      else do
        let _ ← emitCmd (recipeBuildCmd r "-stable" rec0.new) true
        pure ()

/-- The milestone-release shell command of the `milestone` step. -/
def milestoneCmd (r : Rel) (newV : String) : Cmd :=
  Cmd.shell ("./support/release/git/lp-release-milestone " ++ r.project
    ++ " -m " ++ newV ++ " --credentials $LP_CREDS") ""

/-- `Release.milestone`: look up the new version in `versions.json`
(missing entry is a logged skip); in dry-run mode only log; otherwise
trigger the milestone release. -/
def milestoneStep (r : Rel) : M Unit := do
  let w ← getW
  match w.versionsFile with
  | none => mThrow (Err.fileNotFound "versions.json")
  | some data =>
    match lookupAssoc data r.project with
    | none => pure ()
    | some rec0 =>
      if r.dry_run then pure ()
      else do
        let _ ← emitCmd (milestoneCmd r rec0.new) true
        pure ()

/-- The `git rev-list --left-only --count master...release` command of the
release-necessity check (issued without `check=True`). -/
def revListCmd (r : Rel) : Cmd :=
  Cmd.exec ["git", "rev-list", "--left-only", "--count", "master...release"]
    r.clone_dir

/-- The automatic recursive merge favoring master, in testing mode. -/
def mergeTheirsCmd (r : Rel) : Cmd :=
  Cmd.exec ["git", "merge", "master", "-s", "recursive", "-Xtheirs"]
    r.clone_dir

/-- The tag glob pattern used by the release-necessity check and the clone
walk: all tags in testing mode, final versions only in stable mode. -/
def versionPattern (mode : String) : String :=
  if mode = "stable" then "*[^c][0-9]" else "*"

/-- The shell command computing the code diff since the last matching tag,
excluding ignore files. -/
def codeDiffCmd (r : Rel) (pat : String) : Cmd :=
  Cmd.shell ("git diff $(git describe --abbrev=0 --tags --match \"v" ++ pat
    ++ "\") -- . \":(exclude).*ignore\"") r.clone_dir

/-- The shell command computing the version-only diff since the last
matching tag. -/
def versionDiffCmd (r : Rel) (pat : String) : Cmd :=
  Cmd.shell ("git diff $(git describe --abbrev=0 --tags --match \"v" ++ pat
    ++ "\") -G \"__version__|current_version|^\\s*version=\"") r.clone_dir

/-- The shell command computing the packaging diff since the last matching
debian tag. -/
def packagingDiffCmd (r : Rel) (pat : String) : Cmd :=
  Cmd.shell ("git diff $(git describe --abbrev=0 --tags --match \"debian-"
    ++ pat ++ "\") --name-only") r.packaging_clone_dir

/-- The `commits_behind = int(count)` conversion of the release-necessity
check: `int` of a non-numeric string raises `ValueError`, which the
surrounding `except TypeError` clause does not catch, so the error
escapes. -/
def parseCommitsBehind (count : String) : M Int :=
  match pyInt count with
  | some n => pure n
  | none => mThrow (Err.valueError count)

/-- `Release.is_release_required` (release_deb.py lines 241-278): count how
far the release branch is behind master (the rev-list call is not
checked).  In testing mode a non-zero count alone forces a release after
an automatic merge; otherwise compare the code diff against the
version-only diff and test the packaging diff for emptiness. -/
def isReleaseRequired (r : Rel) : M Bool := do
  let env ← getE
  let _ ← emitCmd (revListCmd r) false
  let commitsBehind ← parseCommitsBehind (pyRstrip (env.output (revListCmd r)))
  if commitsBehind ≠ 0 ∧ r.config.mode = "testing" then do
    let _ ← emitCmd (mergeTheirsCmd r) true
    pure true
  else do
    let pat := versionPattern r.config.mode
    let _ ← emitCmd (codeDiffCmd r pat) true
    let codeChange := env.output (codeDiffCmd r pat)
    let _ ← emitCmd (versionDiffCmd r pat) true
    let versionChange := env.output (versionDiffCmd r pat)
    let codeChange2 := if codeChange = versionChange then "" else codeChange
    let _ ← emitCmd (packagingDiffCmd r pat) true
    let packagingChange := env.output (packagingDiffCmd r pat)
    pure (!(codeChange2 = "") || !(packagingChange = ""))

/-- `Release.cleanup`: delete and recreate the working directory, wiping
everything that lived under it (the clones, their tags, the walk results,
the archives and the per-project version config). -/
def cleanupStep : M Unit :=
  modifyW (fun w =>
    { w with
      cfgVersion := none
      repoTags := []
      srcDir := some true
      walkEntries := []
      distArchives := []
      manageExists := false
      setupExists := false })

/-- The initial clone command of the `clone` step (issued without
`check=True`). -/
def cloneOriginCmd : Cmd :=
  Cmd.exec ["git", "clone", origin] cwdConst

/-- The per-directory tag lookup of the `clone` step (issued without
`check=True`; a non-zero status means no tag and the directory is
skipped). -/
def cloneDescribeCmd (mode : String) (name root : String) : Cmd :=
  Cmd.exec ["git", "describe", "--abbrev=0", "--tags", "--match",
    name ++ "-v" ++ versionPattern mode] root

/-- Body of the walk loop of the `clone` step: derive the project path,
root and name from the path components and look up the latest matching
tag. -/
def cloneWalkBody (mode : String) (parts : List String) : M Unit := do
  let projPath := joinSep "/" (parts.drop 2)
  let projRoot := joinSep "/" (parts.take 2)
  let projName := strReplace projPath "s/" "-"
  let _rc ← emitCmd (cloneDescribeCmd mode projName projRoot) false
  pure ()

/-- Run an action for each element of a list (the `for` loops of the
program). -/
def mFor {α : Type} : List α → (α → M Unit) → M Unit
  | [], _ => pure ()
  | x :: xs, f => do
    f x
    mFor xs f

/-- One guarded statement of a sequential `if cond:` block: run the action
when the condition holds, do nothing otherwise. -/
def runStepIf (cond : Prop) [Decidable cond] (act : M Unit) : M Unit :=
  if cond then act else pure ()

/-- `Release.clone` (the `clone` step): scan the working directory (fatal
if missing), clone the monorepo only when the directory is empty, then
walk it looking up the latest matching tag of every directory that has
debian packaging. -/
def cloneStep (mode : String) : M Unit := do
  let w ← getW
  match w.srcDir with
  | none => mThrow (Err.fileNotFound cwdConst)
  | some isEmpty => do
    runStepIf (isEmpty = true) (do
      let _ ← emitCmd cloneOriginCmd false
      pure ())
    let w2 ← getW
    mFor w2.walkEntries (cloneWalkBody mode)

/-- `Release.changelog` (release_deb.py lines 376-403): load
`versions.json` (fatal when missing), then evaluate
`json.load(open(args.config))` - but `args` is a local variable of `main`
and is not visible in the static method, so a `NameError` is raised before
any project is examined. -/
def changelogStep : M Unit := do
  let w ← getW
  match w.versionsFile with
  | none => mThrow (Err.fileNotFound "versions.json")
  | some _ => mThrow (Err.nameError "args")

/-- The git log command the changelog loop would issue for one project. -/
def changelogLogCmd (p oldTag newTag : String) : Cmd :=
  Cmd.exec ["git", "log", "--no-merges", "--pretty=format:+ %s",
    oldTag ++ "..." ++ newTag] (cwdConst ++ "/" ++ p)

/-- The loop of `Release.changelog` after the two loads, as written in the
source (unreachable because of the `NameError` above): for every flagged
project key containing `box`, log the commits between the last stable and
the new tag and append a formatted entry; a missing `versions.json` entry
is a `KeyError` that skips the project. -/
def changelogBody (versions : List (String × VersionRecord)) (config : Config) :
    M Unit :=
  mFor ((configKeys config).filter (fun k => strContains k "box")) (fun p =>
    if !((lookupAssoc config.flags p).getD false) then pure ()
    else
      match lookupAssoc versions p with
      | none => pure ()
      | some rec0 => do
        let oldTag := "v" ++ rec0.last_stable
        let newTag := "v" ++ rec0.new
        let _ ← emitCmd (changelogLogCmd p oldTag newTag) true
        let env ← getE
        let log := env.output (changelogLogCmd p oldTag newTag)
        if !(log = "") then
          modifyW (fun w =>
            { w with changelogText :=
                w.changelogText ++ "\n" ++ p ++ ":\n" ++ log ++ "\n" })
        else
          pure ())

/-- `Release.run` (release_deb.py lines 109-164): the step selector.  The
gate comes first: when the config flag of the project is falsy the method
returns at once, issuing nothing; a missing key is a `KeyError`.  The
steps `open`, `merge` and `milestone` additionally require stable mode. -/
def releaseRun (r : Rel) : M Unit := do
  match lookupAssoc r.config.flags r.project with
  | none => mThrow (Err.keyError r.project)
  | some flag =>
    if !flag then pure ()
    else do
      runStepIf (r.step = "bump") (do
        let _ ← bumpVersion r
        pure ())
      runStepIf (r.step = "sdist") (createSourceTarball r)
      runStepIf (r.step = "dpm") (do
        let ot ← prepareDebianTarball r
        dance r ot.1 ot.2)
      runStepIf (r.step = "open")
        (runStepIf (r.config.mode = "stable") (openForDevelopment r))
      runStepIf (r.step = "push") (pushStep r)
      runStepIf (r.step = "merge")
        (runStepIf (r.config.mode = "stable") (mergeStep r))
      runStepIf (r.step = "build") (buildStep r)
      runStepIf (r.step = "milestone")
        (runStepIf (r.config.mode = "stable") (milestoneStep r))

/-- Truthiness of `config[k]` for the keys the batch loop actually reaches
(project flags; the filter on `box` keeps `mode` and `dry_run` out). -/
def flagTruthy (cfg : Config) (k : String) : Bool :=
  (lookupAssoc cfg.flags k).getD false

/-- The project selection of batch mode and of the changelog loop:
`[key for key in config.keys() if "box" in key]`. -/
def batchProjects (cfg : Config) : List String :=
  (configKeys cfg).filter (fun k => strContains k "box")

/-- `main` (release_deb.py lines 537-586): dispatch `cleanup`, `clone` and
`changelog` before any `Release` object exists; otherwise run the step for
the given project, or in batch mode for every flagged `box` project,
aborting when none requires release.  Each `Release` construction reloads
the config JSON from the world. -/
def mainDispatch (a : Args) : M Unit := do
  if a.step = "cleanup" then cleanupStep
  else if a.step = "clone" then cloneStep a.mode
  else if a.step = "changelog" then changelogStep
  else
    match a.project with
    | some p => do
      let w ← getW
      releaseRun (mkRelease a p w.configFile)
    | none => do
      let w ← getW
      let cfg := w.configFile
      let projects := batchProjects cfg
      let releaseRequired := projects.any (flagTruthy cfg)
      if !releaseRequired then
        mThrow (Err.systemExitMsg "Release not required, aborting...")
      else
        mFor projects (fun p => do
          let w2 ← getW
          releaseRun (mkRelease a p w2.configFile))

section EvalLemmas

@[simp]
theorem getW_eval (env : Env) (w : World) : getW env w = (Except.ok w, w, []) := rfl

@[simp]
theorem modifyW_eval (f : World → World) (env : Env) (w : World) :
    modifyW f env w = (Except.ok (), f w, []) := rfl

@[simp]
theorem getE_eval (env : Env) (w : World) : getE env w = (Except.ok env, w, []) := rfl

@[simp]
theorem mThrow_eval {α : Type} (e : Err) (env : Env) (w : World) :
    (mThrow e : M α) env w = (Except.error e, w, []) := rfl

@[simp]
theorem mOfExcept_eval {α : Type} (e : Except Err α) (env : Env) (w : World) :
    mOfExcept e env w = (e, w, []) := rfl

@[simp]
theorem emitCmd_false_eval (c : Cmd) (env : Env) (w : World) :
    emitCmd c false env w = (Except.ok (env.exitCode c), w, [(c, false)]) := by
  simp [emitCmd]

theorem emitCmd_zero_eval {c : Cmd} {env : Env} (h : env.exitCode c = 0) (w : World) :
    emitCmd c true env w = (Except.ok 0, w, [(c, true)]) := by
  simp [emitCmd, h]

theorem emitCmd_fail_eval {c : Cmd} {env : Env} (h : ¬ env.exitCode c = 0) (w : World) :
    emitCmd c true env w = (Except.error (Err.systemExit 1), w, [(c, true)]) := by
  simp [emitCmd, h]

@[simp]
theorem bind_eval' {α β : Type} (x : M α) (f : α → M β) (env : Env) (w : World) :
    M.bind x f env w =
      (match x env w with
       | (Except.ok a, w1, t1) =>
         (match f a env w1 with
          | (r, w2, t2) => (r, w2, t1 ++ t2))
       | (Except.error e, w1, t1) => (Except.error e, w1, t1)) := rfl

@[simp]
theorem monad_bind_eq {α β : Type} (x : M α) (f : α → M β) :
    x >>= f = M.bind x f := rfl

@[simp]
theorem monad_pure_eq {α : Type} (a : α) : (Pure.pure a : M α) = M.pure a := rfl

@[simp]
theorem mPure_eval {α : Type} (a : α) (env : Env) (w : World) :
    M.pure a env w = (Except.ok a, w, []) := rfl

end EvalLemmas

section CloneLemmas

/-- The trace entry produced by the clone walk for one directory. -/
def cloneWalkEntry (mode : String) (parts : List String) : Cmd × Bool :=
  (cloneDescribeCmd mode (strReplace (joinSep "/" (parts.drop 2)) "s/" "-")
    (joinSep "/" (parts.take 2)), false)

theorem cloneWalkBody_eval (mode : String) (parts : List String) (env : Env)
    (w : World) :
    cloneWalkBody mode parts env w = (Except.ok (), w, [cloneWalkEntry mode parts]) := by
  simp [cloneWalkBody, cloneWalkEntry]

theorem mFor_cloneWalk (mode : String) (l : List (List String)) (env : Env)
    (w : World) :
    mFor l (cloneWalkBody mode) env w =
      (Except.ok (), w, l.map (cloneWalkEntry mode)) := by
  induction l generalizing w with
  | nil => simp [mFor]
  | cons x xs ih =>
    simp [mFor, cloneWalkBody_eval, ih]

/-- Full evaluation of the `clone` step: fatal when the working directory
is missing, otherwise the initial clone (only into an empty directory)
followed by one unchecked tag lookup per packaging directory; the local
file state is untouched. -/
theorem cloneStep_eval (mode : String) (env : Env) (w : World) :
    cloneStep mode env w =
      (match w.srcDir with
       | none => (Except.error (Err.fileNotFound cwdConst), w, [])
       | some isEmpty =>
         (Except.ok (), w,
           (if isEmpty then [(cloneOriginCmd, false)] else []) ++
             w.walkEntries.map (cloneWalkEntry mode))) := by
  rcases h : w.srcDir with _ | isEmpty
  · simp [cloneStep, h]
  · cases isEmpty <;> simp [cloneStep, runStepIf, h, mFor_cloneWalk]

end CloneLemmas

/-- Replace the project flags of the on-disk config JSON, leaving
everything else of the world unchanged. -/
def withFlags (w : World) (f : List (String × Bool)) : World :=
  { w with configFile := { w.configFile with flags := f } }

@[simp]
theorem withFlags_srcDir (w : World) (f : List (String × Bool)) :
    (withFlags w f).srcDir = w.srcDir := rfl

@[simp]
theorem withFlags_walkEntries (w : World) (f : List (String × Bool)) :
    (withFlags w f).walkEntries = w.walkEntries := rfl

@[simp]
theorem withFlags_versionsFile (w : World) (f : List (String × Bool)) :
    (withFlags w f).versionsFile = w.versionsFile := rfl

/-- Claim C1: for every project whose flag in the release config JSON is
falsy, `Release.run` performs no action for any step it dispatches (bump,
sdist, dpm, open, push, merge, build, milestone): no external command is
issued, no exception is raised and the file state is unchanged.  Moreover
only `cleanup`, `clone` and `changelog` are exempt from this gate: `main`
routes exactly those three steps around the `Release` object, and their
outcome and issued commands are independent of the project flags. -/
theorem run_noop_of_falsy_flag (r : Rel) (env : Env) (w : World)
    (h : lookupAssoc r.config.flags r.project = some false) :
    releaseRun r env w = (Except.ok (), w, []) ∧
    (∀ (a : Args) (env2 : Env) (w2 : World) (f : List (String × Bool)),
      a.step = "cleanup" ∨ a.step = "clone" ∨ a.step = "changelog" →
      (mainDispatch a env2 (withFlags w2 f)).1 = (mainDispatch a env2 w2).1 ∧
      (mainDispatch a env2 (withFlags w2 f)).2.2 = (mainDispatch a env2 w2).2.2) := by
  constructor
  · simp [releaseRun, h]
  · intro a env2 w2 f hstep
    rcases hstep with h1 | h1 | h1
    · simp [mainDispatch, h1, cleanupStep]
    · simp [mainDispatch, h1, cloneStep_eval]
      rcases w2.srcDir with _ | isEmpty <;> simp
    · simp [mainDispatch, h1, changelogStep]
      rcases w2.versionsFile with _ | d <;> simp

section Fixtures

/-- A benign oracle environment: every command succeeds, outputs are empty,
and `bumpversion` appends the bumped part to the version. -/
def sampleEnv : Env :=
  { exitCode := fun _ => 0
    output := fun _ => ""
    bump := fun part v => v ++ "+" ++ part }

/-- A config whose only project flag is off. -/
def cfgFlagOff : Config :=
  { flags := [("checkbox", false)], mode := "stable", dry_run := false }

/-- Arguments for a single-project `push` invocation. -/
def sampleArgs : Args :=
  { project := some "checkbox", step := "push", user := "u",
    target_user := "checkbox-dev", mode := "stable", dryRun := false }

/-- A sample world with a clone carrying one stable tag. -/
def sampleWorld : World :=
  { configFile := cfgFlagOff
    cfgVersion := some "1.4.0dev2"
    versionsFile := some []
    repoTags := ["v1.3.0"]
    changelogText := ""
    srcDir := some false
    walkEntries := []
    distArchives := []
    manageExists := false
    setupExists := false }

end Fixtures

/-- Witness for claim C1: with the sample config whose `checkbox` flag is
false, running the `push` step for `checkbox` issues nothing and changes
nothing. -/
theorem run_noop_of_falsy_flag_witness :
    releaseRun (mkRelease sampleArgs "checkbox" cfgFlagOff) sampleEnv sampleWorld
      = (Except.ok (), sampleWorld, []) :=
  (run_noop_of_falsy_flag (mkRelease sampleArgs "checkbox" cfgFlagOff)
    sampleEnv sampleWorld (by decide)).1

/-- Claim C2: whenever the code diff since the last matching tag equals the
version-only diff and, in testing mode, the release branch is not behind
master, `is_release_required` returns true exactly when the packaging diff
since the last matching debian tag is non-empty; the check issues the
rev-list count and the three diff commands. -/
theorem isReleaseRequired_diff_equal (r : Rel) (env : Env) (w : World) (n : Int)
    (hok : ∀ c, env.exitCode c = 0)
    (hcount : pyInt (pyRstrip (env.output (revListCmd r))) = some n)
    (hbehind : r.config.mode = "testing" → n = 0)
    (hdiff : env.output (codeDiffCmd r (versionPattern r.config.mode)) =
      env.output (versionDiffCmd r (versionPattern r.config.mode))) :
    isReleaseRequired r env w =
      (Except.ok
          (!(env.output (packagingDiffCmd r (versionPattern r.config.mode)) = "")),
        w,
        [(revListCmd r, false),
         (codeDiffCmd r (versionPattern r.config.mode), true),
         (versionDiffCmd r (versionPattern r.config.mode), true),
         (packagingDiffCmd r (versionPattern r.config.mode), true)]) := by
  have hcond : ¬(n ≠ 0 ∧ r.config.mode = "testing") := by
    rintro ⟨hn, hm⟩
    exact hn (hbehind hm)
  simp [isReleaseRequired, parseCommitsBehind, emitCmd, hok, hcount, hcond, hdiff]

section FixturesC2

/-- Config in testing mode with the `checkbox` flag on. -/
def cfgC2 : Config :=
  { flags := [("checkbox", true)], mode := "testing", dry_run := false }

/-- The release object of the C2 witness. -/
def relC2 : Rel :=
  mkRelease { sampleArgs with mode := "testing" } "checkbox" cfgC2

/-- Oracle for the C2 witness: the release branch is zero commits behind,
code and version diffs are both empty, the packaging diff is non-empty. -/
def envC2 : Env :=
  { exitCode := fun _ => 0
    output := fun c =>
      if c = packagingDiffCmd relC2 "*" then "debian/changelog"
      else if c = revListCmd relC2 then "0"
      else ""
    bump := fun _ v => v }

end FixturesC2

/-- Witness for claim C2: identical (empty) code and version diffs, branch
not behind, non-empty packaging diff: the check reports that a release is
required. -/
theorem isReleaseRequired_diff_equal_witness :
    isReleaseRequired relC2 envC2 sampleWorld =
      (Except.ok true, sampleWorld,
        [(revListCmd relC2, false),
         (codeDiffCmd relC2 "*", true),
         (versionDiffCmd relC2 "*", true),
         (packagingDiffCmd relC2 "*", true)]) := by
  rw [isReleaseRequired_diff_equal relC2 envC2 sampleWorld 0 (fun _ => rfl)
    (by decide) (fun _ => rfl) (by decide)]
  decide

/-- Claim C5: with the dry-run flag set, every command the `push` step ever
issues is a `git push` carrying `--dry-run`, and the `merge` step makes no
merge proposal: it issues exactly the one `--dry-run` branch-deletion
push.  No command mutating the remote is invoked. -/
theorem dry_run_push_merge_safe (r : Rel) (env : Env) (w : World)
    (h : r.dry_run = true) :
    (pushStep r env w).2.2 ⊆
      [(Cmd.exec ["git", "push", "--dry-run", projectUrl r, "release", "--tags"]
          r.clone_dir, true),
       (Cmd.exec ["git", "push", "--dry-run", packagingUrl r, "--all"]
          r.packaging_clone_dir, true),
       (Cmd.exec ["git", "push", "--dry-run", packagingUrl r, "--tags"]
          r.packaging_clone_dir, true)] ∧
    mergeStep r env w = (Except.ok (), w, [(mergeDryCmd r, false)]) := by
  constructor
  · by_cases h1 : env.exitCode (Cmd.exec ["git", "push", "--dry-run", projectUrl r,
        "release", "--tags"] r.clone_dir) = 0 <;>
      by_cases h2 : env.exitCode (Cmd.exec ["git", "push", "--dry-run", packagingUrl r,
        "--all"] r.packaging_clone_dir) = 0 <;>
      by_cases h3 : env.exitCode (Cmd.exec ["git", "push", "--dry-run", packagingUrl r,
        "--tags"] r.packaging_clone_dir) = 0 <;>
      simp [pushStep, h, emitCmd, h1, h2, h3, List.subset_def]
  · simp [mergeStep, h]

/-- Witness for claim C5: a concrete dry-run merge issues exactly the
`--dry-run` deletion push. -/
theorem dry_run_push_merge_safe_witness :
    mergeStep (mkRelease sampleArgs "checkbox"
        { cfgFlagOff with flags := [("checkbox", true)], dry_run := true })
      sampleEnv sampleWorld =
      (Except.ok (), sampleWorld,
        [(mergeDryCmd (mkRelease sampleArgs "checkbox"
            { cfgFlagOff with flags := [("checkbox", true)], dry_run := true }),
          false)]) :=
  (dry_run_push_merge_safe _ sampleEnv sampleWorld rfl).2

/-- Claim C10: the parsed `--dry-run` command-line flag (and its
environment-variable fallback) is never consulted: two invocations that
differ only in that flag behave identically - same result, same file
state, same external commands - for every step, in particular push, merge,
build and milestone.  Dry-run behavior comes solely from the `dry_run`
field of the config JSON. -/
theorem cli_dry_run_flag_ignored (a : Args) (d1 d2 : Bool) (env : Env) (w : World) :
    mainDispatch { a with dryRun := d1 } env w =
      mainDispatch { a with dryRun := d2 } env w := by
  cases a
  rfl

section BumpLemmas

/-- The sequence of `bumpversion` parts the bump step applies, by mode and
current version. -/
def bumpPartsOf (mode v : String) : List String :=
  if mode = "stable" then
    if strContains v "dev" then ["release", "release"]
    else if strContains v "rc" then ["release"]
    else ["minor", "release", "release"]
  else
    if strContains v "dev" then ["release", "N"]
    else if strContains v "rc" then ["N"]
    else ["minor", "release", "N"]

/-- The version reached by chaining the `bumpversion` oracle through the
mode-dependent part sequence. -/
def newVersionOf (env : Env) (mode v : String) : String :=
  (bumpPartsOf mode v).foldl (fun cur part => env.bump part cur) v

/-- Full evaluation of `bump_version` on a readable `.bumpversion.cfg` and
a repository with a stable tag, when all external commands succeed and the
final bumpversion output parses back to the bumped version: the bumpversion
calls, the add, the commit and the stable-tag lookup are issued, the new
version and the version record are persisted - and the method ends in the
`NameError` on the undefined name `project`, so no `git tag` command
appears in the trace. -/
theorem bumpVersion_spec (r : Rel) (env : Env) (w : World) (v t : String)
    (hok : ∀ c, env.exitCode c = 0)
    (hcfg : w.cfgVersion = some v)
    (hdesc : describeStable w.repoTags = some t)
    (hparse : parseNewVersion ("new_version=" ++ newVersionOf env r.config.mode v) =
      Except.ok (newVersionOf env r.config.mode v)) :
    bumpVersion r env w =
      (Except.error (Err.nameError "project"),
       { w with
           cfgVersion := some (newVersionOf env r.config.mode v)
           versionsFile := some (setAssoc (w.versionsFile.getD []) r.project
             { last_stable := (t.toList.drop 1).asString
               current := v
               new := newVersionOf env r.config.mode v }) },
       (bumpPartsOf r.config.mode v).map
           (fun part => (Cmd.exec (bumpArgv part) r.clone_dir, true)) ++
         [(Cmd.exec ["git", "add", "--all"] r.clone_dir, true),
          (Cmd.exec ["git", "commit", "-m",
            "Bump to v" ++ newVersionOf env r.config.mode v] r.clone_dir, true),
          (Cmd.exec describeStableArgv r.clone_dir, true)]) := by
  by_cases hm : r.config.mode = "stable" <;>
    by_cases hdev : strContains v "dev" = true <;>
    by_cases hrc : strContains v "rc" = true <;>
    simp [newVersionOf, bumpPartsOf, hm, hdev, hrc] at hparse <;>
    simp [bumpVersion, bumpSequence, getVersion, callBumpversion, saveVersions,
      emitDescribeStable, emitCmd, newVersionOf, bumpPartsOf, hok, hcfg, hdesc,
      hm, hdev, hrc, hparse]

/-- Whether a command is a `bumpversion` invocation. -/
def isBumpCall : Cmd → Bool
  | Cmd.exec ("bumpversion" :: _) _ => true
  | _ => false

/-- Whether a command is a `git tag` invocation. -/
def isTagCmd : Cmd → Bool
  | Cmd.exec ("git" :: "tag" :: _) _ => true
  | _ => false

/-- Number of `bumpversion` invocations in a trace. -/
def countBumpCalls (t : Trace) : Nat :=
  (t.filter (fun ce => isBumpCall ce.1)).length

@[simp]
theorem isBumpCall_bumpArgv (part cwd : String) :
    isBumpCall (Cmd.exec (bumpArgv part) cwd) = true := rfl

@[simp]
theorem isBumpCall_git (rest : List String) (cwd : String) :
    isBumpCall (Cmd.exec ("git" :: rest) cwd) = false := rfl

end BumpLemmas

section AssocLemmas

theorem find_setAssoc_replace (k : String) (v : VersionRecord) :
    ∀ l : List (String × VersionRecord), l.any (fun kv => kv.1 == k) = true →
      (l.map (fun kv => if kv.1 == k then (k, v) else kv)).find?
        (fun kv => kv.1 == k) = some (k, v) := by
  intro l
  induction l with
  | nil => intro h; simp at h
  | cons x xs ih =>
    intro h
    by_cases hx : (x.1 == k) = true
    · rw [List.map_cons, if_pos hx, List.find?_cons_of_pos _ (by simp)]
    · simp only [List.any_cons, hx, Bool.false_or] at h
      rw [List.map_cons, if_neg hx, List.find?_cons_of_neg _ (by simp [hx])]
      exact ih h

theorem find_append_self (k : String) (v : VersionRecord) :
    ∀ l : List (String × VersionRecord), l.any (fun kv => kv.1 == k) = false →
      (l ++ [(k, v)]).find? (fun kv => kv.1 == k) = some (k, v) := by
  intro l
  induction l with
  | nil => intro _; rw [List.nil_append, List.find?_cons_of_pos _ (by simp)]
  | cons x xs ih =>
    intro h
    simp only [List.any_cons, Bool.or_eq_false_iff] at h
    rw [List.cons_append, List.find?_cons_of_neg _ (by simp [h.1])]
    exact ih h.2

/-- Setting a key in the versions dictionary makes its lookup return the
new record. -/
theorem lookupAssoc_setAssoc_self (l : List (String × VersionRecord))
    (k : String) (v : VersionRecord) :
    lookupAssoc (setAssoc l k v) k = some v := by
  unfold lookupAssoc setAssoc
  by_cases h : l.any (fun kv => kv.1 == k) = true
  · rw [if_pos h, find_setAssoc_replace k v l h]
    rfl
  · simp only [Bool.not_eq_true] at h
    rw [if_neg (by simp [h]), find_append_self k v l h]
    rfl

end AssocLemmas

section FixturesBump

/-- Oracle for the bump fixtures: all commands succeed and `bumpversion`
always lands on `1.4.0`. -/
def envC3 : Env :=
  { exitCode := fun _ => 0
    output := fun _ => ""
    bump := fun _ _ => "1.4.0" }

/-- Config in stable mode with the `checkbox` flag on. -/
def cfgC3 : Config :=
  { flags := [("checkbox", true)], mode := "stable", dry_run := false }

/-- The release object of the bump fixtures (stable mode, step `bump`). -/
def relC3 : Rel :=
  mkRelease { sampleArgs with step := "bump" } "checkbox" cfgC3

end FixturesBump

/-- Claim C3 (code bug): on a readable `.bumpversion.cfg` the bump step
does commit the version change and does persist the
`last_stable`/`current`/`new` record to `versions.json`, but it can never
tag the repository: formatting the tag message evaluates the name
`project`, which is only a local variable of `main`, so `bump_version`
raises `NameError` and no `git tag` command is ever issued.  Concretely,
from current version `1.4.0dev2` in stable mode the trace holds the commit
for `v1.4.0` and no tag command, and the method ends in the error. -/
theorem bump_commits_and_saves_but_never_tags :
    (bumpVersion relC3 envC3 sampleWorld).1 = Except.error (Err.nameError "project") ∧
    (bumpVersion relC3 envC3 sampleWorld).2.1.versionsFile =
      some [("checkbox",
        { last_stable := "1.3.0", current := "1.4.0dev2", new := "1.4.0" })] ∧
    ((Cmd.exec ["git", "commit", "-m", "Bump to v1.4.0"] "src/checkbox", true) ∈
      (bumpVersion relC3 envC3 sampleWorld).2.2) ∧
    (bumpVersion relC3 envC3 sampleWorld).2.2.all (fun ce => !(isTagCmd ce.1)) = true := by
  decide

/-- Claim C4: in stable mode the bump step applies exactly two
`bumpversion` calls when the current version contains `dev`, and exactly
one when it contains `rc` but not `dev` (counted over the whole trace of
the step). -/
theorem bump_stable_call_counts (r : Rel) (env : Env) (w : World) (v t : String)
    (hok : ∀ c, env.exitCode c = 0)
    (hcfg : w.cfgVersion = some v)
    (hdesc : describeStable w.repoTags = some t)
    (hparse : parseNewVersion ("new_version=" ++ newVersionOf env r.config.mode v) =
      Except.ok (newVersionOf env r.config.mode v))
    (hmode : r.config.mode = "stable") :
    (strContains v "dev" = true →
      countBumpCalls (bumpVersion r env w).2.2 = 2) ∧
    (strContains v "dev" = false → strContains v "rc" = true →
      countBumpCalls (bumpVersion r env w).2.2 = 1) := by
  rw [bumpVersion_spec r env w v t hok hcfg hdesc hparse]
  constructor
  · intro hdev
    simp [countBumpCalls, bumpPartsOf, hmode, hdev, describeStableArgv]
  · intro hdev hrc
    simp [countBumpCalls, bumpPartsOf, hmode, hdev, hrc, describeStableArgv]

/-- Witness for claim C4: bumping from `1.4.0dev2` in stable mode issues
exactly two `bumpversion` calls. -/
theorem bump_stable_call_counts_witness :
    countBumpCalls (bumpVersion relC3 envC3 sampleWorld).2.2 = 2 :=
  (bump_stable_call_counts relC3 envC3 sampleWorld "1.4.0dev2" "v1.3.0"
    (fun _ => rfl) (by decide) (by decide) (by decide) (by decide)).1 (by decide)

/-- Claim C8: after two consecutive bump invocations for the same project
(under the same successful-tool oracle), the `versions.json` entry has the
same `last_stable` as after the first bump, its `current` equals the `new`
recorded by the first bump, and its `new` is the version produced by the
second bump. -/
theorem bump_twice_versions_record (r : Rel) (env : Env) (w : World)
    (v0 t v1 : String)
    (hok : ∀ c, env.exitCode c = 0)
    (hcfg : w.cfgVersion = some v0)
    (hdesc : describeStable w.repoTags = some t)
    (hv1 : v1 = newVersionOf env r.config.mode v0)
    (hparse1 : parseNewVersion ("new_version=" ++ v1) = Except.ok v1)
    (hparse2 : parseNewVersion ("new_version=" ++ newVersionOf env r.config.mode v1) =
      Except.ok (newVersionOf env r.config.mode v1)) :
    lookupAssoc (((bumpVersion r env w).2.1).versionsFile.getD []) r.project =
      some { last_stable := (t.toList.drop 1).asString, current := v0, new := v1 } ∧
    lookupAssoc
        (((bumpVersion r env ((bumpVersion r env w).2.1)).2.1).versionsFile.getD [])
        r.project =
      some { last_stable := (t.toList.drop 1).asString, current := v1,
             new := newVersionOf env r.config.mode v1 } := by
  subst hv1
  have h1 := bumpVersion_spec r env w v0 t hok hcfg hdesc hparse1
  have h2 := bumpVersion_spec r env ((bumpVersion r env w).2.1)
    (newVersionOf env r.config.mode v0) t hok (by rw [h1]) (by rw [h1]; exact hdesc)
    hparse2
  constructor
  · rw [h1]
    exact lookupAssoc_setAssoc_self _ _ _
  · rw [h2]
    exact lookupAssoc_setAssoc_self _ _ _

section FixturesC8

/-- Oracle for the C8 witness: `bumpversion` appends the bumped part. -/
def envC8 : Env :=
  { exitCode := fun _ => 0
    output := fun _ => ""
    bump := fun part v => v ++ ";" ++ part }

end FixturesC8

/-- Witness for claim C8: two concrete consecutive bumps from `1.4.0dev2`
in stable mode. -/
theorem bump_twice_versions_record_witness :
    lookupAssoc (((bumpVersion relC3 envC8 sampleWorld).2.1).versionsFile.getD [])
        "checkbox" =
      some { last_stable := "1.3.0", current := "1.4.0dev2",
             new := "1.4.0dev2;release;release" } ∧
    lookupAssoc
        (((bumpVersion relC3 envC8
            ((bumpVersion relC3 envC8 sampleWorld).2.1)).2.1).versionsFile.getD [])
        "checkbox" =
      some { last_stable := "1.3.0", current := "1.4.0dev2;release;release",
             new := "1.4.0dev2;release;release;release;release" } := by
  exact bump_twice_versions_record relC3 envC8 sampleWorld "1.4.0dev2" "v1.3.0"
    "1.4.0dev2;release;release" (fun _ => rfl) (by decide) (by decide) (by decide)
    (by decide) (by decide)

section FixturesC7

/-- A world with a flagged `box` project and its version record present,
for the changelog claim. -/
def worldC7 : World :=
  { sampleWorld with
      configFile := cfgC3
      versionsFile := some [("checkbox",
        { last_stable := "1.3.0", current := "1.4.0dev2", new := "1.4.0" })] }

end FixturesC7

/-- Claim C7 (code bug): the changelog step never reaches its per-project
loop.  After loading `versions.json` it evaluates `json.load(open(args.config))`,
but `args` is a local variable of `main` and not visible inside the static
method, so `NameError` is raised: even with a flagged `box` project and its
version record present, no `git log` command is issued and the changelog
file is untouched. -/
theorem changelog_crashes_on_args :
    changelogStep sampleEnv worldC7 =
      (Except.error (Err.nameError "args"), worldC7, []) := by
  decide

section CheckDiscipline

/-- The commands the program issues without `check=True`, whose non-zero
exit is therefore survived: the initial monorepo clone and the tag lookups
of the `clone` step, the `--dry-run` branch-deletion push of the dry-run
`merge` step, and the rev-list count of the release-necessity check (the
release-branch creation checkout tolerated in the unused clone helper is
of the `git checkout` shape and never reached from `main`). -/
def allowedUnchecked : Cmd → Bool
  | Cmd.exec ("git" :: "clone" :: _) _ => true
  | Cmd.exec ("git" :: "describe" :: _) _ => true
  | Cmd.exec ("git" :: "push" :: "--dry-run" :: _) _ => true
  | Cmd.exec ("git" :: "rev-list" :: _) _ => true
  | _ => false

/-- Every command in every trace of the computation carries `check=True`. -/
def Checked {α : Type} (m : M α) : Prop :=
  ∀ (env : Env) (w : World) (ce : Cmd × Bool), ce ∈ (m env w).2.2 → ce.2 = true

/-- Every unchecked command in every trace of the computation is one of the
explicitly tolerated ones. -/
def UncheckedOK {α : Type} (m : M α) : Prop :=
  ∀ (env : Env) (w : World) (ce : Cmd × Bool), ce ∈ (m env w).2.2 →
    ce.2 = false → allowedUnchecked ce.1 = true

theorem checked_uo {α : Type} {m : M α} (h : Checked m) : UncheckedOK m := by
  intro env w ce hm hf
  rw [h env w ce hm] at hf
  cases hf

theorem mem_bind_trace {α β : Type} {x : M α} {f : α → M β} {env : Env}
    {w : World} {ce : Cmd × Bool} (h : ce ∈ ((x >>= f) env w).2.2) :
    ce ∈ (x env w).2.2 ∨ ∃ a w1, ce ∈ (f a env w1).2.2 := by
  rw [monad_bind_eq, bind_eval'] at h
  rcases hxw : x env w with ⟨res, w1, t1⟩
  rw [hxw] at h
  cases res with
  | ok a =>
    dsimp only at h
    rcases hfw : f a env w1 with ⟨r2, w2, t2⟩
    rw [hfw] at h
    dsimp only at h
    rcases List.mem_append.mp h with hm | hm
    · left; exact hm
    · right; exact ⟨a, w1, by rw [hfw]; exact hm⟩
  | error e =>
    dsimp only at h
    left; exact h

theorem checked_bind {α β : Type} {x : M α} {f : α → M β}
    (hx : Checked x) (hf : ∀ a, Checked (f a)) : Checked (x >>= f) := by
  intro env w ce hm
  rcases mem_bind_trace hm with h | ⟨a, w1, h⟩
  · exact hx env w ce h
  · exact hf a env w1 ce h

theorem uo_bind {α β : Type} {x : M α} {f : α → M β}
    (hx : UncheckedOK x) (hf : ∀ a, UncheckedOK (f a)) : UncheckedOK (x >>= f) := by
  intro env w ce hm hfalse
  rcases mem_bind_trace hm with h | ⟨a, w1, h⟩
  · exact hx env w ce h hfalse
  · exact hf a env w1 ce h hfalse

theorem checked_of_nil {α : Type} {m : M α}
    (h : ∀ env w, (m env w).2.2 = []) : Checked m := by
  intro env w ce hm
  rw [h env w] at hm
  cases hm

theorem checked_mPure {α : Type} (a : α) : Checked (M.pure a) :=
  checked_of_nil (fun _ _ => rfl)

theorem checked_pure {α : Type} (a : α) : Checked (Pure.pure a : M α) :=
  checked_mPure a

theorem checked_getW : Checked getW := checked_of_nil (fun _ _ => rfl)

theorem checked_getE : Checked getE := checked_of_nil (fun _ _ => rfl)

theorem checked_modifyW (f : World → World) : Checked (modifyW f) :=
  checked_of_nil (fun _ _ => rfl)

theorem checked_mThrow {α : Type} (e : Err) : Checked (mThrow e : M α) :=
  checked_of_nil (fun _ _ => rfl)

theorem checked_mOfExcept {α : Type} (e : Except Err α) : Checked (mOfExcept e) :=
  checked_of_nil (fun _ _ => rfl)

theorem checked_emit_true (c : Cmd) : Checked (emitCmd c true) := by
  intro env w ce hm
  unfold emitCmd at hm
  by_cases h : env.exitCode c = 0 <;> simp [h] at hm <;> rw [hm]

theorem uo_emit_allowed (c : Cmd) (chk : Bool)
    (h : allowedUnchecked c = true) : UncheckedOK (emitCmd c chk) := by
  intro env w ce hm _
  simp only [emitCmd] at hm
  split at hm <;> simp at hm <;> rw [hm] <;> exact h

theorem checked_ite {α : Type} {p : Prop} [Decidable p] {x y : M α}
    (hx : Checked x) (hy : Checked y) : Checked (if p then x else y) := by
  split <;> assumption

theorem uo_ite {α : Type} {p : Prop} [Decidable p] {x y : M α}
    (hx : UncheckedOK x) (hy : UncheckedOK y) : UncheckedOK (if p then x else y) := by
  split <;> assumption

theorem uo_mFor {α : Type} {l : List α} {f : α → M Unit}
    (h : ∀ x, UncheckedOK (f x)) : UncheckedOK (mFor l f) := by
  induction l with
  | nil => exact checked_uo (checked_mPure ())
  | cons x xs ih =>
    unfold mFor
    exact uo_bind (h x) (fun _ => ih)

theorem checked_emitDescribeStable (r : Rel) : Checked (emitDescribeStable r) := by
  intro env w ce hm
  unfold emitDescribeStable at hm
  split at hm <;> simp at hm <;> rw [hm]

theorem checked_getVersion (r : Rel) : Checked (getVersion r) := by
  unfold getVersion
  apply checked_bind checked_getW
  intro w0
  rcases w0.cfgVersion with _ | v
  · exact checked_mThrow _
  · exact checked_pure _

theorem checked_callBumpversion (r : Rel) (part : String) :
    Checked (callBumpversion r part) := by
  unfold callBumpversion
  repeat'
    first
    | apply checked_bind
    | exact checked_emit_true _
    | exact checked_getE
    | exact checked_getW
    | exact checked_modifyW _
    | exact checked_pure _
    | intro _

theorem checked_saveVersions (r : Rel) (cv nv : String) :
    Checked (saveVersions r cv nv) := by
  unfold saveVersions
  repeat'
    first
    | apply checked_bind
    | exact checked_getW
    | exact checked_emitDescribeStable r
    | exact checked_modifyW _
    | exact checked_pure _
    | intro _

theorem checked_bumpSequence (r : Rel) (cv : String) :
    Checked (bumpSequence r cv) := by
  have h2 : ∀ p1 p2 : String,
      Checked (callBumpversion r p1 >>= fun _ => callBumpversion r p2) :=
    fun p1 p2 => checked_bind (checked_callBumpversion r p1)
      (fun _ => checked_callBumpversion r p2)
  have h3 : ∀ p1 p2 p3 : String,
      Checked (callBumpversion r p1 >>= fun _ =>
        callBumpversion r p2 >>= fun _ => callBumpversion r p3) :=
    fun p1 p2 p3 => checked_bind (checked_callBumpversion r p1)
      (fun _ => h2 p2 p3)
  unfold bumpSequence
  apply checked_ite
  · exact checked_ite (h2 _ _)
      (checked_ite (checked_callBumpversion r _) (h3 _ _ _))
  · exact checked_ite (h2 _ _)
      (checked_ite (checked_callBumpversion r _) (h3 _ _ _))

theorem checked_bumpVersion (r : Rel) : Checked (bumpVersion r) := by
  unfold bumpVersion
  apply checked_bind (checked_getVersion r)
  intro cv
  apply checked_bind (checked_bumpSequence r cv)
  intro out
  apply checked_bind (checked_mOfExcept _)
  intro nv
  apply checked_bind (checked_emit_true _)
  intro _
  apply checked_bind (checked_emit_true _)
  intro _
  apply checked_bind (checked_saveVersions r _ _)
  intro _
  exact checked_mThrow _

theorem checked_createSourceTarball (r : Rel) :
    Checked (createSourceTarball r) := by
  unfold createSourceTarball
  apply checked_bind (checked_getVersion r)
  intro _
  apply checked_bind checked_getW
  intro w
  apply checked_ite
  · exact checked_bind (checked_emit_true _) (fun _ => checked_pure _)
  · apply checked_ite
    · exact checked_bind (checked_emit_true _) (fun _ => checked_pure _)
    · exact checked_pure _

theorem checked_prepareDebianTarball (r : Rel) :
    Checked (prepareDebianTarball r) := by
  unfold prepareDebianTarball
  apply checked_bind (checked_getVersion r)
  intro newV
  apply checked_bind checked_getW
  intro w
  dsimp only
  rcases w.distArchives.getLast? with _ | tb
  · exact checked_mThrow _
  · exact checked_pure _

theorem checked_dance (r : Rel) (ot dv : String) : Checked (dance r ot dv) := by
  unfold dance
  apply checked_bind (checked_emit_true _)
  intro _
  apply checked_bind (checked_emit_true _)
  intro _
  apply checked_bind (checked_emit_true _)
  intro _
  apply checked_bind (checked_emit_true _)
  intro _
  apply checked_bind (checked_emit_true _)
  intro _
  apply checked_bind (checked_emit_true _)
  intro _
  exact checked_bind (checked_emit_true _) (fun _ => checked_pure _)

theorem checked_openForDevelopment (r : Rel) :
    Checked (openForDevelopment r) := by
  unfold openForDevelopment
  apply checked_bind (checked_callBumpversion r _)
  intro out
  apply checked_bind (checked_mOfExcept _)
  intro v
  apply checked_bind (checked_emit_true _)
  intro _
  apply checked_bind (checked_emit_true _)
  intro _
  exact checked_pure _

theorem checked_pushStep (r : Rel) : Checked (pushStep r) := by
  unfold pushStep
  apply checked_ite
  · apply checked_bind (checked_emit_true _)
    intro _
    apply checked_bind (checked_emit_true _)
    intro _
    exact checked_bind (checked_emit_true _) (fun _ => checked_pure _)
  · apply checked_bind (checked_emit_true _)
    intro _
    apply checked_bind (checked_emit_true _)
    intro _
    exact checked_bind (checked_emit_true _) (fun _ => checked_pure _)

theorem uo_mergeStep (r : Rel) : UncheckedOK (mergeStep r) := by
  unfold mergeStep
  apply uo_ite
  · exact uo_bind (uo_emit_allowed (mergeDryCmd r) false rfl)
      (fun _ => checked_uo (checked_pure _))
  · exact checked_uo (checked_bind (checked_emit_true _)
      (fun _ => checked_bind (checked_emit_true _) (fun _ => checked_pure _)))

theorem checked_buildStep (r : Rel) : Checked (buildStep r) := by
  unfold buildStep
  apply checked_bind checked_getW
  intro w
  rcases w.versionsFile with _ | data
  · exact checked_mThrow _
  · dsimp only
    rcases lookupAssoc data r.project with _ | rec0
    · exact checked_pure _
    · dsimp only
      apply checked_ite (checked_pure _)
      apply checked_ite
      · exact checked_bind (checked_emit_true _) (fun _ => checked_pure _)
      · exact checked_bind (checked_emit_true _) (fun _ => checked_pure _)

theorem checked_milestoneStep (r : Rel) : Checked (milestoneStep r) := by
  unfold milestoneStep
  apply checked_bind checked_getW
  intro w
  rcases w.versionsFile with _ | data
  · exact checked_mThrow _
  · dsimp only
    rcases lookupAssoc data r.project with _ | rec0
    · exact checked_pure _
    · dsimp only
      apply checked_ite (checked_pure _)
      exact checked_bind (checked_emit_true _) (fun _ => checked_pure _)

theorem uo_runStepIf {p : Prop} [Decidable p] {act : M Unit}
    (h : UncheckedOK act) : UncheckedOK (runStepIf p act) := by
  unfold runStepIf
  exact uo_ite h (checked_uo (checked_pure _))

theorem checked_runStepIf {p : Prop} [Decidable p] {act : M Unit}
    (h : Checked act) : Checked (runStepIf p act) := by
  unfold runStepIf
  exact checked_ite h (checked_pure _)

theorem uo_releaseRun (r : Rel) : UncheckedOK (releaseRun r) := by
  unfold releaseRun
  rcases lookupAssoc r.config.flags r.project with _ | flag
  · exact checked_uo (checked_mThrow _)
  · apply uo_ite (checked_uo (checked_pure _))
    apply uo_bind (uo_runStepIf (checked_uo (checked_bind (checked_bumpVersion r)
      (fun _ => checked_pure _))))
    intro _
    apply uo_bind (uo_runStepIf (checked_uo (checked_createSourceTarball r)))
    intro _
    apply uo_bind (uo_runStepIf (checked_uo (checked_bind
      (checked_prepareDebianTarball r) (fun ot => checked_dance r ot.1 ot.2))))
    intro _
    apply uo_bind (uo_runStepIf (uo_runStepIf
      (checked_uo (checked_openForDevelopment r))))
    intro _
    apply uo_bind (uo_runStepIf (checked_uo (checked_pushStep r)))
    intro _
    apply uo_bind (uo_runStepIf (uo_runStepIf (uo_mergeStep r)))
    intro _
    apply uo_bind (uo_runStepIf (checked_uo (checked_buildStep r)))
    intro _
    exact uo_runStepIf (uo_runStepIf (checked_uo (checked_milestoneStep r)))

theorem checked_parseCommitsBehind (count : String) :
    Checked (parseCommitsBehind count) := by
  unfold parseCommitsBehind
  rcases pyInt count with _ | n
  · exact checked_mThrow _
  · exact checked_pure _

theorem uo_isReleaseRequired (r : Rel) : UncheckedOK (isReleaseRequired r) := by
  unfold isReleaseRequired
  apply uo_bind (checked_uo checked_getE)
  intro env
  apply uo_bind (uo_emit_allowed (revListCmd r) false rfl)
  intro rc
  apply uo_bind (checked_uo (checked_parseCommitsBehind _))
  intro n
  apply uo_ite
  · exact checked_uo (checked_bind (checked_emit_true _) (fun _ => checked_pure _))
  · apply checked_uo
    dsimp only
    apply checked_bind (checked_emit_true _)
    intro _
    apply checked_bind (checked_emit_true _)
    intro _
    exact checked_bind (checked_emit_true _) (fun _ => checked_pure _)

theorem uo_cloneWalkBody (mode : String) (parts : List String) :
    UncheckedOK (cloneWalkBody mode parts) := by
  unfold cloneWalkBody
  exact uo_bind (uo_emit_allowed _ false rfl) (fun _ => checked_uo (checked_pure _))

theorem uo_cloneStep (mode : String) : UncheckedOK (cloneStep mode) := by
  unfold cloneStep
  apply uo_bind (checked_uo checked_getW)
  intro w
  rcases w.srcDir with _ | isEmpty
  · exact checked_uo (checked_mThrow _)
  · apply uo_bind (uo_runStepIf (uo_bind (uo_emit_allowed cloneOriginCmd false rfl)
      (fun _ => checked_uo (checked_pure _))))
    intro _
    apply uo_bind (checked_uo checked_getW)
    intro w2
    exact uo_mFor (uo_cloneWalkBody mode)

theorem checked_changelogStep : Checked changelogStep := by
  unfold changelogStep
  apply checked_bind checked_getW
  intro w
  rcases w.versionsFile with _ | d
  · exact checked_mThrow _
  · exact checked_mThrow _

theorem checked_cleanupStep : Checked cleanupStep :=
  checked_of_nil (fun _ _ => rfl)

theorem uo_mainDispatch (a : Args) : UncheckedOK (mainDispatch a) := by
  unfold mainDispatch
  apply uo_ite (checked_uo checked_cleanupStep)
  apply uo_ite (uo_cloneStep a.mode)
  apply uo_ite (checked_uo checked_changelogStep)
  rcases a.project with _ | p
  · apply uo_bind (checked_uo checked_getW)
    intro w
    dsimp only
    apply uo_ite (checked_uo (checked_mThrow _))
    apply uo_mFor
    intro p
    exact uo_bind (checked_uo checked_getW) (fun w2 => uo_releaseRun _)
  · exact uo_bind (checked_uo checked_getW) (fun w => uo_releaseRun _)

section FixturesC6

/-- A config in stable mode, with dry-run set, for the merge
counterexample. -/
def cfgC6 : Config :=
  { flags := [("checkbox", true)], mode := "stable", dry_run := true }

/-- The release object of the C6 counterexample. -/
def relC6 : Rel :=
  mkRelease { sampleArgs with step := "merge" } "checkbox" cfgC6

/-- An oracle in which exactly the dry-run branch-deletion push of the
merge step fails. -/
def envC6 : Env :=
  { exitCode := fun c => if c = mergeDryCmd relC6 then 1 else 0
    output := fun _ => ""
    bump := fun _ v => v }

/-- An oracle in which every external command fails. -/
def envFail : Env :=
  { exitCode := fun _ => 1
    output := fun _ => ""
    bump := fun _ v => v }

end FixturesC6

/-- Counterexample to claim C6 as stated: the dry-run `merge` step issues
its branch-deletion push without `check=True`; here that command exits
with status 1 and yet the step completes successfully instead of aborting
the process - and this command is neither the tag lookup of `clone` nor
the first-time release-branch creation. -/
theorem merge_dry_run_survives_failure :
    envC6.exitCode (mergeDryCmd relC6) = 1 ∧
    mergeStep relC6 envC6 sampleWorld =
      (Except.ok (), sampleWorld, [(mergeDryCmd relC6, false)]) := by
  decide

/-- Claim C6 (amended): every external command issued with `check=True`
that exits non-zero aborts the process immediately with `SystemExit(1)`
(the `run` wrapper turns `CalledProcessError` into `SystemExit(1)`), and
the commands issued without `check=True` - whose failure is survived - are
exactly the tolerated ones: besides the tag lookups, they include the
initial monorepo clone of the `clone` step, the rev-list count of the
release-necessity check, and the branch-deletion push of the dry-run
`merge` step. -/
theorem checked_failure_aborts_tolerated_enumerated :
    (∀ (env : Env) (w : World) (c : Cmd), ¬ env.exitCode c = 0 →
      emitCmd c true env w = (Except.error (Err.systemExit 1), w, [(c, true)])) ∧
    (∀ (a : Args) (env : Env) (w : World) (ce : Cmd × Bool),
      ce ∈ (mainDispatch a env w).2.2 → ce.2 = false →
        allowedUnchecked ce.1 = true) ∧
    (∀ (r : Rel) (env : Env) (w : World) (ce : Cmd × Bool),
      ce ∈ (isReleaseRequired r env w).2.2 → ce.2 = false →
        allowedUnchecked ce.1 = true) := by
  refine ⟨?_, ?_, ?_⟩
  · intro env w c h
    exact emitCmd_fail_eval h w
  · intro a
    exact uo_mainDispatch a
  · intro r
    exact uo_isReleaseRequired r

/-- Witness for claim C6 (amended): a concrete checked command that fails
aborts with `SystemExit(1)`. -/
theorem checked_failure_aborts_tolerated_enumerated_witness :
    emitCmd (proposeMergeCmd relC6) true envFail sampleWorld =
      (Except.error (Err.systemExit 1), sampleWorld,
        [(proposeMergeCmd relC6, true)]) :=
  checked_failure_aborts_tolerated_enumerated.1 envFail sampleWorld
    (proposeMergeCmd relC6) (by decide)

end CheckDiscipline

/-- Claim C9: batch mode and the changelog step treat as projects only the
config keys containing the substring `box`.  First conjunct: with a single
flagged key not containing `box`, batch mode does not process it - it
aborts with `Release not required` without issuing anything, even though
the flag is true.  Second conjunct: adding a flagged `box` key makes batch
mode process exactly that key (the whole run equals the single-project run
for it).  Third conjunct: the changelog step issues no command for any
key whatsoever (it dies on the `args` NameError first). -/
theorem batch_changelog_box_keys_only (a : Args) (env : Env) (w : World)
    (k p : String)
    (hk : strContains k "box" = false)
    (hp : strContains p "box" = true)
    (hproj : a.project = none)
    (hs1 : a.step ≠ "cleanup") (hs2 : a.step ≠ "clone")
    (hs3 : a.step ≠ "changelog") :
    (w.configFile.flags = [(k, true)] →
      mainDispatch a env w =
        (Except.error (Err.systemExitMsg "Release not required, aborting..."),
          w, [])) ∧
    (w.configFile.flags = [(k, true), (p, true)] →
      mainDispatch a env w = releaseRun (mkRelease a p w.configFile) env w) ∧
    (∀ (env2 : Env) (w2 : World), (changelogStep env2 w2).2.2 = []) := by
  have h1 : strContains "mode" "box" = false := by decide
  have h2 : strContains "dry_run" "box" = false := by decide
  refine ⟨?_, ?_, ?_⟩
  · intro hflags
    simp [mainDispatch, hproj, hs1, hs2, hs3, batchProjects, configKeys, hflags,
      hk, h1, h2, flagTruthy, List.filter_cons]
  · intro hflags
    have hkp : k ≠ p := by
      intro he
      rw [he] at hk
      rw [hk] at hp
      cases hp
    have hne : (k == p) = false := by
      simp [hkp]
    simp only [mainDispatch, hproj, hs1, hs2, hs3, if_neg, ite_false]
    simp [hs1, hs2, hs3, batchProjects, configKeys, hflags, hk, hp, h1, h2,
      flagTruthy, List.filter_cons, lookupAssoc, List.find?, hne]
    rcases hr : releaseRun (mkRelease a p w.configFile) env w with ⟨res, w2, t⟩
    cases res <;> simp [mFor, hr]
  · intro env2 w2
    rcases h : w2.versionsFile with _ | d <;> simp [changelogStep, h]

section FixturesC9

/-- Batch-mode arguments (no project given). -/
def argsC9 : Args := { sampleArgs with project := none }

/-- A world whose config flags exactly one key, `weird`, which does not
contain `box`. -/
def worldC9 : World :=
  { sampleWorld with
      configFile := { flags := [("weird", true)], mode := "stable", dry_run := false } }

end FixturesC9

/-- Witness for claim C9: batch mode over a config whose only (true)
flagged key is `weird` aborts with `Release not required` and issues no
command. -/
theorem batch_changelog_box_keys_only_witness :
    mainDispatch argsC9 sampleEnv worldC9 =
      (Except.error (Err.systemExitMsg "Release not required, aborting..."),
        worldC9, []) :=
  (batch_changelog_box_keys_only argsC9 sampleEnv worldC9 "weird" "checkbox"
    (by decide) (by decide) rfl (by decide) (by decide) (by decide)).1 rfl

end ReleaseDeb
